import Mathlib

/-!
Verification of the `litter_assessment_service.api` module
(repository `elnazazmi/litter-assessment`).

The Python module is embedded shallowly: the orchestration logic of
`get_input_data`, `warm` and `predict` is translated into pure Lean
functions; the external collaborators (CNN models, plotting, dataframe
building, image decoding, face anonymisation) are abstracted into an
environment record of opaque but pure functions, and every observable
side effect (loading a model, running a stage, writing a file, uploading,
printing) is recorded as an event in a trace.
-/

namespace LitterAssessment

/-- `os.path.join a b` for the two-argument uses in `api.py`: `b` when
`b` is absolute, otherwise `a` and `b` joined with a single slash. -/
def osPathJoin (a b : String) : String :=
  if b.data.take 1 = ['/'] then b
  else if a = "" then b
  else if a.data.getLast? = some '/' then a ++ b
  else a ++ "/" ++ b

/-- `os.path.basename p`: the component after the last `/`. -/
def osPathBasename (p : String) : String :=
  ⟨(p.data.reverse.takeWhile (fun c => c ≠ '/')).reverse⟩

/-- Python slicing `s[:-4]`: drop the last four characters
(the empty string when `s` has at most four characters). -/
def pyDropLast4 (s : String) : String :=
  ⟨s.data.take (s.data.length - 4)⟩

/-- The uploaded payload as seen by `api.py`: its MIME content type,
the path of the stored file (`filename`) and the name the client gave
it (`original_filename`). -/
structure Payload where
  content_type : String
  filename : String
  original_filename : String
deriving Repr, DecidableEq

/-- The keyword arguments of `predict` (schema of §6 of the module docs). -/
structure PredictArgs where
  files : Payload
  face_detection : Bool
  PLD_plot : Bool
  PLQ_plot : Bool
  output_type : String
deriving Repr, DecidableEq

/-- `get_input_data(data)`.  For a zip payload the archive is extracted
into a fresh temporary directory `tmpInput` and the directory is listed;
the extraction-plus-listing is abstracted by `listing`, the list that
`os.listdir` returns on the extracted directory.  For any other content
type the stored file itself is the single image. -/
def get_input_data (data : Payload) (listing : List String) (tmpInput : String) :
    List String × List String :=
  if data.content_type = "application/zip" then
    (listing, (List.range listing.length).map
      (fun i => osPathJoin tmpInput (listing.getD i "")))
  else
    ([data.original_filename], [data.filename])

/-- Observable effects of a `predict` run, in program order.
Per-image events carry the index of the loop iteration that produced
them; stage events also carry the identifier of the image array
(`img`) they ran on, and `plq` carries the `c_matrix` it was given. -/
inductive Event where
  | loadModel (name : String)
  | decode (iter : Nat) (file : String)
  | pld (iter : Nat) (img : Nat) (res : Nat)
  | pldDf (iter : Nat)
  | plq (iter : Nat) (cm : Nat) (img : Nat)
  | plqDf (iter : Nat)
  | savePlot (path : String)
  | writeWorkbook (path : String) (sheets : List String)
  | makeArchive (dir : String) (zipPath : String)
  | upload (localPath : String) (remotePath : String)
  | printMsg (msg : String)
deriving Repr, DecidableEq

/-- The loop-iteration index carried by a per-image event
(`none` for events that are not tied to an iteration). -/
def eventIter : Event → Option Nat
  | .decode i _ => some i
  | .pld i _ _ => some i
  | .pldDf i => some i
  | .plq i _ _ => some i
  | .plqDf i => some i
  | _ => none

/-- The pure abstraction of the external collaborators.  Model handles,
image arrays, detection results and matrices are identified by natural
numbers; each collaborator is an arbitrary pure function of its inputs,
exactly the data the Python call sites pass. -/
structure Env where
  /-- `preprocessing.warm(model_name)`. -/
  load : String → Nat
  /-- decoding via `get_arr_from_bin` (octet-stream payloads). -/
  decodeBin : String → Nat
  /-- decoding via `PIL.Image.open` + `np.array` (all other payloads). -/
  decodeImg : String → Nat
  /-- `classification.PLD_result(image, image_names, model)`. -/
  pldRes : Nat → List String → Nat → Nat
  /-- the `c_matrix` attribute of a detection result. -/
  cMatrix : Nat → Nat
  /-- `classification.PLQ_result(c_matrix, image, image_names, model)`. -/
  plqRes : Nat → Nat → List String → Nat → Nat
  /-- `face_detection.anonymize_images(image_files, image_names)`. -/
  anonymize : List String → List String → List String

/-- The remote path hard-coded in `predict`. -/
def toPathConst : String := "rshare:iMagine_UC1/results"

/-- `save_plot_nextcloud(...)`: renders the plot, saves the `.jpg`
file and uploads it with `rclone copy`. -/
def save_plot_nextcloud (output_path ty to_path : String) : List Event :=
  [Event.savePlot (output_path ++ ("_" ++ ty ++ ".jpg")),
   Event.upload (output_path ++ ("_" ++ ty ++ ".jpg")) to_path]

/-- `return_plot(...)`: renders the plot and saves the `.jpg` file. -/
def return_plot (output_path ty : String) : List Event :=
  [Event.savePlot (output_path ++ ("_" ++ ty ++ ".jpg"))]

/-- The body of `predict`'s `for name, file in zip(...)` loop for one
image, lines 184-246 of `api.py`.  Returns the events of the iteration
and `some path` when the iteration executes `return open(path, 'rb')`. -/
def processImage (env : Env) (args : PredictArgs) (image_names : List String)
    (mPLD mPLQ : Nat) (tmp_dir : String) (i : Nat) (name file : String) :
    List Event × Option String :=
  let name := osPathBasename name
  let output_path := osPathJoin tmp_dir (pyDropLast4 name)
  let excel_path := output_path ++ "_litter_items.xlsx"
  let image :=
    if args.files.content_type = "application/octet-stream" then
      env.decodeBin file
    else
      env.decodeImg file
  let results_PLD := env.pldRes image image_names mPLD
  let baseEvents := [Event.decode i file, Event.pld i image results_PLD, Event.pldDf i]
  if args.PLD_plot && args.PLQ_plot then
    let results_PLQ := env.plqRes (env.cMatrix results_PLD) image image_names mPLQ
    let events := baseEvents
      ++ return_plot output_path "PLD"
      ++ [Event.plq i (env.cMatrix results_PLD) image, Event.plqDf i]
      ++ return_plot output_path "PLQ"
      ++ [Event.writeWorkbook excel_path
            ["Litter Detection", "Litter Quantification"]]
    if args.output_type = "Download" then
      (events ++ [Event.makeArchive tmp_dir (tmp_dir ++ ".zip")],
       some (tmp_dir ++ ".zip"))
    else if args.output_type = "nextcloud" then
      (events ++ save_plot_nextcloud output_path "PLD" toPathConst
              ++ save_plot_nextcloud output_path "PLQ" toPathConst, none)
    else
      (events ++ [Event.printMsg "no output type selected"], none)
  else if args.PLD_plot then
    let events := baseEvents ++ return_plot output_path "PLD"
    let plot_path := output_path ++ "_PLD.jpg"
    if args.output_type = "Download" then
      (events, some plot_path)
    else if args.output_type = "nextcloud" then
      (events ++ save_plot_nextcloud output_path "PLD" toPathConst, none)
    else
      (events ++ [Event.printMsg "no output type selected"], none)
  else if args.PLQ_plot then
    let results_PLQ := env.plqRes (env.cMatrix results_PLD) image image_names mPLQ
    let events := baseEvents
      ++ [Event.plq i (env.cMatrix results_PLD) image]
      ++ return_plot output_path "PLQ"
    let plot_path := output_path ++ "_PLQ.jpg"
    if args.output_type = "Download" then
      (events, some plot_path)
    else if args.output_type = "nextcloud" then
      (events ++ save_plot_nextcloud output_path "PLQ" toPathConst, none)
    else
      (events ++ [Event.printMsg "no output type selected"], none)
  else
    (baseEvents, none)

/-- The `for name, file in zip(image_names, image_files)` loop:
iterations run in order, and a `return` inside an iteration ends the
loop (and the whole function) immediately. -/
def predictLoop (env : Env) (args : PredictArgs) (image_names : List String)
    (mPLD mPLQ : Nat) (tmp_dir : String) :
    Nat → List (String × String) → List Event × Option String
  | _, [] => ([], none)
  | i, (name, file) :: rest =>
    let pr := processImage env args image_names mPLD mPLQ tmp_dir i name file
    match pr.2 with
    | some r => (pr.1, some r)
    | none =>
      let pr2 := predictLoop env args image_names mPLD mPLQ tmp_dir (i + 1) rest
      (pr.1 ++ pr2.1, pr2.2)

/-- The process-wide globals `model_PLD`/`model_PLQ` that `warm()` and
`predict()` assign. -/
structure Globals where
  model_PLD : Option Nat
  model_PLQ : Option Nat
deriving Repr, DecidableEq

/-- `warm()`: loads both models into the process-wide globals. -/
def warm (env : Env) (_g : Globals) : Globals × List Event :=
  let mPLD := env.load "litter-assessment/models/PLD_CNN.h5"
  let mPLQ := env.load "litter-assessment/models/PLQ_CNN.h5"
  ({ model_PLD := some mPLD, model_PLQ := some mPLQ },
   [Event.loadModel "litter-assessment/models/PLD_CNN.h5",
    Event.loadModel "litter-assessment/models/PLQ_CNN.h5"])

/-- The `image_names` list `predict` computes from its upload. -/
def predictNames (args : PredictArgs) (listing : List String) (tmpInput : String) :
    List String :=
  (get_input_data args.files listing tmpInput).1

/-- The `image_files` list `predict` computes from its upload, after the
optional face anonymisation. -/
def predictFiles (env : Env) (args : PredictArgs) (listing : List String)
    (tmpInput : String) : List String :=
  let fs := (get_input_data args.files listing tmpInput).2
  if args.face_detection then
    env.anonymize fs (predictNames args listing tmpInput)
  else fs

/-- The (name, file) pairs `predict`'s loop enumerates
(`zip(image_names, image_files)`). -/
def predictPairs (env : Env) (args : PredictArgs) (listing : List String)
    (tmpInput : String) : List (String × String) :=
  (predictNames args listing tmpInput).zip (predictFiles env args listing tmpInput)

/-- `predict(**kwargs)`, lines 164-246 of `api.py`.

`g` is the incoming process-wide model state, `listing` abstracts the
directory listing of the extracted zip archive, `tmpInput` and `tmp_dir`
are the two freshly created temporary directories.  Returns the new
global state, the event trace, and `some path` exactly when the Python
function returns `open(path, 'rb')` (and `none` when it falls off the
end and returns `None`). -/
def predict (env : Env) (args : PredictArgs) (_g : Globals)
    (listing : List String) (tmpInput tmp_dir : String) :
    Globals × List Event × Option String :=
  let mPLD := env.load "litter-assessment/models/PLD_CNN.h5"
  let mPLQ := env.load "litter-assessment/models/PLQ_CNN.h5"
  let loadEvents := [Event.loadModel "litter-assessment/models/PLD_CNN.h5",
                     Event.loadModel "litter-assessment/models/PLQ_CNN.h5"]
  let lr :=
    predictLoop env args (predictNames args listing tmpInput) mPLD mPLQ tmp_dir 0
      (predictPairs env args listing tmpInput)
  ({ model_PLD := some mPLD, model_PLQ := some mPLQ },
   loadEvents ++ lr.1, lr.2)

/-- The trace of a `predict` run. -/
def predictTrace (env : Env) (args : PredictArgs) (g : Globals)
    (listing : List String) (tmpInput tmp_dir : String) : List Event :=
  (predict env args g listing tmpInput tmp_dir).2.1

/-- The value a `predict` run returns: `some path` for an open file
handle on `path`, `none` for Python's implicit `None`. -/
def predictResult (env : Env) (args : PredictArgs) (g : Globals)
    (listing : List String) (tmpInput tmp_dir : String) : Option String :=
  (predict env args g listing tmpInput tmp_dir).2.2

/-- The paths of the files a trace writes into the scratch directory
(plot files and workbook files), in the order they are written.  These
are exactly the files the download-mode archive of the scratch
directory contains. -/
def writtenFiles (t : List Event) : List String :=
  t.filterMap (fun e =>
    match e with
    | .savePlot p => some p
    | .writeWorkbook p _ => some p
    | _ => none)

/-- Whether an event writes a workbook file. -/
def isWorkbookEvent : Event → Bool
  | .writeWorkbook _ _ => true
  | _ => false

/-- Whether `s` ends with `suf` (string suffix test, on character lists). -/
def strEndsWith (s suf : String) : Bool :=
  s.data.drop (s.data.length - suf.data.length) = suf.data

/-- The number of `.xlsx` files a trace writes. -/
def xlsxCount (t : List Event) : Nat :=
  ((writtenFiles t).filter (fun p => strEndsWith p ".xlsx")).length

/-- The number of `.jpg` files a trace writes. -/
def jpgCount (t : List Event) : Nat :=
  ((writtenFiles t).filter (fun p => strEndsWith p ".jpg")).length

/-- The spec-side naming rule for plot artifacts, following the spec's
words: the basename of the original filename with its extension (the
part from the last dot onwards) removed.  This is the second,
spec-derived definition, to be compared with the code's `pyDropLast4`
(`name[:-4]`). -/
def specStripExtension (s : String) : String :=
  if s.data.contains '.' then
    ⟨s.data.take (s.data.length - 1 - s.data.reverse.indexOf '.')⟩
  else s

/-- A concrete environment used to evaluate the model on closed inputs. -/
def envA : Env where
  load s := s.data.length
  decodeBin s := s.data.length + 1
  decodeImg s := s.data.length + 2
  pldRes img ns m := img + 10 * ns.length + 100 * m
  cMatrix d := d + 1
  plqRes cm img ns m := cm + img + ns.length + m
  anonymize fs _ := fs

/-- A concrete zip payload. -/
def payloadZip : Payload :=
  { content_type := "application/zip", filename := "/up/z.zip",
    original_filename := "z.zip" }

/-- A concrete single-image payload with a three-character extension. -/
def payloadImg : Payload :=
  { content_type := "image/jpeg", filename := "/up/stored",
    original_filename := "photo.jpg" }

/-- A concrete single-image payload with a four-character extension. -/
def payloadJpeg : Payload :=
  { content_type := "image/jpeg", filename := "/up/stored",
    original_filename := "photo.jpeg" }

/-- The initial (empty) process-wide model state. -/
def g0 : Globals := { model_PLD := none, model_PLQ := none }

/-- Concrete arguments: zip upload, both plots, download mode. -/
def argsBothDL : PredictArgs :=
  { files := payloadZip, face_detection := false, PLD_plot := true,
    PLQ_plot := true, output_type := "Download" }

/-- Concrete arguments: single image, both plots, download mode. -/
def argsSingleDL : PredictArgs :=
  { files := payloadImg, face_detection := false, PLD_plot := true,
    PLQ_plot := true, output_type := "Download" }

/-- Concrete arguments: single image, quantification plot only,
nextcloud mode. -/
def argsPLQNextcloud : PredictArgs :=
  { files := payloadImg, face_detection := false, PLD_plot := false,
    PLQ_plot := true, output_type := "nextcloud" }

/-- Concrete arguments: zip upload, detection plot only, an output type
outside the two recognised ones. -/
def argsPLDWeird : PredictArgs :=
  { files := payloadZip, face_detection := false, PLD_plot := true,
    PLQ_plot := false, output_type := "weird" }

/-- Concrete arguments: single image, both plots, an output type outside
the two recognised ones. -/
def argsBothWeird : PredictArgs :=
  { files := payloadImg, face_detection := false, PLD_plot := true,
    PLQ_plot := true, output_type := "weird" }

/-- Concrete arguments: zip upload, no plots requested, download mode. -/
def argsNoPlots : PredictArgs :=
  { files := payloadZip, face_detection := false, PLD_plot := false,
    PLQ_plot := false, output_type := "Download" }

/-- Concrete arguments: single image with a four-character extension,
detection plot only. -/
def argsJpegPLD : PredictArgs :=
  { files := payloadJpeg, face_detection := false, PLD_plot := true,
    PLQ_plot := false, output_type := "x" }

/-! ### Facts about a single iteration of the per-image loop -/

section IterationLemmas

variable (env : Env) (args : PredictArgs) (ns : List String)
variable (m1 m2 : Nat) (td : String) (i : Nat) (n f : String)

lemma processImage_iter :
    ∀ e ∈ (processImage env args ns m1 m2 td i n f).1, ∀ j,
      eventIter e = some j → j = i := by
  intro e he j hj
  simp only [processImage, return_plot, save_plot_nextcloud] at he
  split_ifs at he <;>
    simp only [List.mem_append, List.mem_cons, List.not_mem_nil, or_false] at he <;>
    casesm* _ ∨ _ <;> subst_vars <;> simp [eventIter] at hj <;> omega

lemma processImage_isSome_of_download
    (hdl : args.output_type = "Download")
    (hplot : args.PLD_plot = true ∨ args.PLQ_plot = true) :
    ((processImage env args ns m1 m2 td i n f).2).isSome = true := by
  by_cases h1 : args.PLD_plot <;> by_cases h2 : args.PLQ_plot <;>
    simp_all [processImage, hdl]

lemma processImage_none_of_not_download
    (hdl : args.output_type ≠ "Download") :
    (processImage env args ns m1 m2 td i n f).2 = none := by
  simp only [processImage]
  split_ifs <;> simp_all

lemma processImage_plq :
    ∀ i' cm img, Event.plq i' cm img ∈ (processImage env args ns m1 m2 td i n f).1 →
      ∃ d, cm = env.cMatrix d ∧
        Event.pld i' img d ∈ (processImage env args ns m1 m2 td i n f).1 := by
  intro i' cm img h
  simp only [processImage, return_plot, save_plot_nextcloud] at h ⊢
  split_ifs at h ⊢ <;> simp at h <;>
    (obtain ⟨rfl, rfl, rfl⟩ := h; exact ⟨_, rfl, by simp⟩)

lemma processImage_workbook :
    ∀ p sh, Event.writeWorkbook p sh ∈ (processImage env args ns m1 m2 td i n f).1 →
      args.PLD_plot = true ∧ args.PLQ_plot = true ∧
      sh = ["Litter Detection", "Litter Quantification"] ∧
      p = osPathJoin td (pyDropLast4 (osPathBasename n)) ++ "_litter_items.xlsx" := by
  intro p sh h
  by_cases h1 : args.PLD_plot <;> by_cases h2 : args.PLQ_plot <;>
    simp only [processImage, return_plot, save_plot_nextcloud] at h <;>
    split_ifs at h <;> simp_all

lemma processImage_workbook_mem
    (h1 : args.PLD_plot = true) (h2 : args.PLQ_plot = true) :
    Event.writeWorkbook
        (osPathJoin td (pyDropLast4 (osPathBasename n)) ++ "_litter_items.xlsx")
        ["Litter Detection", "Litter Quantification"]
      ∈ (processImage env args ns m1 m2 td i n f).1 := by
  simp only [processImage, return_plot, save_plot_nextcloud, h1, h2, Bool.and_self,
    if_true]
  split_ifs <;> simp

lemma processImage_no_upload (hnc : args.output_type ≠ "nextcloud") :
    ∀ l r, Event.upload l r ∉ (processImage env args ns m1 m2 td i n f).1 := by
  intro l r h
  simp only [processImage, return_plot, save_plot_nextcloud] at h
  split_ifs at h <;> simp_all

lemma processImage_print
    (hdl : args.output_type ≠ "Download") (hnc : args.output_type ≠ "nextcloud")
    (hplot : args.PLD_plot = true ∨ args.PLQ_plot = true) :
    Event.printMsg "no output type selected"
      ∈ (processImage env args ns m1 m2 td i n f).1 := by
  by_cases h1 : args.PLD_plot <;> by_cases h2 : args.PLQ_plot <;>
    simp_all [processImage, return_plot, save_plot_nextcloud, hdl, hnc]

lemma processImage_savePlot :
    ∀ p, Event.savePlot p ∈ (processImage env args ns m1 m2 td i n f).1 →
      p = osPathJoin td (pyDropLast4 (osPathBasename n)) ++ "_PLD.jpg" ∨
      p = osPathJoin td (pyDropLast4 (osPathBasename n)) ++ "_PLQ.jpg" := by
  intro p h
  simp only [processImage, return_plot, save_plot_nextcloud] at h
  split_ifs at h <;>
    simp only [List.mem_append, List.mem_cons, List.not_mem_nil, or_false] at h <;>
    casesm* _ ∨ _ <;> simp_all

lemma processImage_no_flags
    (h1 : args.PLD_plot = false) (h2 : args.PLQ_plot = false) :
    processImage env args ns m1 m2 td i n f =
      ([Event.decode i f,
        Event.pld i
          (if args.files.content_type = "application/octet-stream" then
            env.decodeBin f else env.decodeImg f)
          (env.pldRes
            (if args.files.content_type = "application/octet-stream" then
              env.decodeBin f else env.decodeImg f) ns m1),
        Event.pldDf i], none) := by
  simp [processImage, h1, h2]

lemma processImage_both_download
    (h1 : args.PLD_plot = true) (h2 : args.PLQ_plot = true)
    (hdl : args.output_type = "Download") :
    processImage env args ns m1 m2 td i n f =
      ([Event.decode i f,
        Event.pld i
          (if args.files.content_type = "application/octet-stream" then
            env.decodeBin f else env.decodeImg f)
          (env.pldRes
            (if args.files.content_type = "application/octet-stream" then
              env.decodeBin f else env.decodeImg f) ns m1),
        Event.pldDf i,
        Event.savePlot (osPathJoin td (pyDropLast4 (osPathBasename n)) ++ "_PLD.jpg"),
        Event.plq i
          (env.cMatrix (env.pldRes
            (if args.files.content_type = "application/octet-stream" then
              env.decodeBin f else env.decodeImg f) ns m1))
          (if args.files.content_type = "application/octet-stream" then
            env.decodeBin f else env.decodeImg f),
        Event.plqDf i,
        Event.savePlot (osPathJoin td (pyDropLast4 (osPathBasename n)) ++ "_PLQ.jpg"),
        Event.writeWorkbook
          (osPathJoin td (pyDropLast4 (osPathBasename n)) ++ "_litter_items.xlsx")
          ["Litter Detection", "Litter Quantification"],
        Event.makeArchive td (td ++ ".zip")], some (td ++ ".zip")) := by
  simp [processImage, h1, h2, hdl, return_plot, save_plot_nextcloud]

end IterationLemmas

/-! ### Facts about the per-image loop and the whole `predict` run -/

section LoopLemmas

variable (env : Env) (args : PredictArgs) (ns : List String)
variable (m1 m2 : Nat) (td : String)

lemma predictLoop_cons_some (i : Nat) (n f : String)
    (rest : List (String × String)) (r : String)
    (h : (processImage env args ns m1 m2 td i n f).2 = some r) :
    predictLoop env args ns m1 m2 td i ((n, f) :: rest) =
      ((processImage env args ns m1 m2 td i n f).1, some r) := by
  simp only [predictLoop]
  rw [h]

lemma predictLoop_cons_none (i : Nat) (n f : String)
    (rest : List (String × String))
    (h : (processImage env args ns m1 m2 td i n f).2 = none) :
    predictLoop env args ns m1 m2 td i ((n, f) :: rest) =
      ((processImage env args ns m1 m2 td i n f).1
         ++ (predictLoop env args ns m1 m2 td (i + 1) rest).1,
       (predictLoop env args ns m1 m2 td (i + 1) rest).2) := by
  simp only [predictLoop]
  rw [h]

lemma predictLoop_mem (ps : List (String × String)) :
    ∀ i e, e ∈ (predictLoop env args ns m1 m2 td i ps).1 →
      ∃ j n f, (n, f) ∈ ps ∧ e ∈ (processImage env args ns m1 m2 td j n f).1 ∧
        ∀ e', e' ∈ (processImage env args ns m1 m2 td j n f).1 →
          e' ∈ (predictLoop env args ns m1 m2 td i ps).1 := by
  induction ps with
  | nil => intro i e he; simp [predictLoop] at he
  | cons p rest ih =>
    intro i e he
    obtain ⟨n, f⟩ := p
    rcases hres : (processImage env args ns m1 m2 td i n f).2 with _ | r
    · rw [predictLoop_cons_none env args ns m1 m2 td i n f rest hres] at he ⊢
      rcases List.mem_append.1 he with h1 | h2
      · exact ⟨i, n, f, by simp, h1, fun e' he' => List.mem_append_left _ he'⟩
      · obtain ⟨j, n', f', hmem, hproc, hall⟩ := ih (i + 1) e h2
        exact ⟨j, n', f', by simp [hmem], hproc,
          fun e' he' => List.mem_append_right _ (hall e' he')⟩
    · rw [predictLoop_cons_some env args ns m1 m2 td i n f rest r hres] at he ⊢
      exact ⟨i, n, f, by simp, he, fun e' he' => he'⟩

lemma predictLoop_head_mem (i : Nat) (n f : String)
    (rest : List (String × String)) :
    ∀ e ∈ (processImage env args ns m1 m2 td i n f).1,
      e ∈ (predictLoop env args ns m1 m2 td i ((n, f) :: rest)).1 := by
  intro e he
  rcases hres : (processImage env args ns m1 m2 td i n f).2 with _ | r
  · rw [predictLoop_cons_none env args ns m1 m2 td i n f rest hres]
    exact List.mem_append_left _ he
  · rw [predictLoop_cons_some env args ns m1 m2 td i n f rest r hres]
    exact he

lemma predictLoop_snd_none
    (hnone : ∀ j n f, (processImage env args ns m1 m2 td j n f).2 = none) :
    ∀ (ps : List (String × String)) (i : Nat),
      (predictLoop env args ns m1 m2 td i ps).2 = none := by
  intro ps
  induction ps with
  | nil => intro i; rfl
  | cons p rest ih =>
    intro i
    obtain ⟨n, f⟩ := p
    rw [predictLoop_cons_none env args ns m1 m2 td i n f rest (hnone i n f)]
    exact ih (i + 1)

lemma predictLoop_getD_mem
    (hnone : ∀ j n f, (processImage env args ns m1 m2 td j n f).2 = none) :
    ∀ (ps : List (String × String)) (i k : Nat), k < ps.length →
      ∀ e, e ∈ (processImage env args ns m1 m2 td (i + k)
          (ps.getD k ("", "")).1 (ps.getD k ("", "")).2).1 →
        e ∈ (predictLoop env args ns m1 m2 td i ps).1 := by
  intro ps
  induction ps with
  | nil => intro i k hk; simp at hk
  | cons p rest ih =>
    intro i k hk e he
    obtain ⟨n, f⟩ := p
    rw [predictLoop_cons_none env args ns m1 m2 td i n f rest (hnone i n f)]
    rcases k with _ | k'
    · apply List.mem_append_left
      simpa using he
    · apply List.mem_append_right
      apply ih (i + 1) k' (by simpa using hk)
      have harith : i + (k' + 1) = (i + 1) + k' := by omega
      simpa [harith] using he

lemma predictTrace_def (g : Globals) (listing : List String) (tmpInput : String) :
    predictTrace env args g listing tmpInput td =
      Event.loadModel "litter-assessment/models/PLD_CNN.h5" ::
      Event.loadModel "litter-assessment/models/PLQ_CNN.h5" ::
      (predictLoop env args (predictNames args listing tmpInput)
        (env.load "litter-assessment/models/PLD_CNN.h5")
        (env.load "litter-assessment/models/PLQ_CNN.h5") td 0
        (predictPairs env args listing tmpInput)).1 := rfl

lemma predictResult_def (g : Globals) (listing : List String) (tmpInput : String) :
    predictResult env args g listing tmpInput td =
      (predictLoop env args (predictNames args listing tmpInput)
        (env.load "litter-assessment/models/PLD_CNN.h5")
        (env.load "litter-assessment/models/PLQ_CNN.h5") td 0
        (predictPairs env args listing tmpInput)).2 := rfl

end LoopLemmas

/-! ### The shape of the enumerated (name, file) pairs -/

section PairsLemmas

variable (env : Env) (args : PredictArgs) (listing : List String) (tmpInput : String)

lemma predictNames_of_zip (hz : args.files.content_type = "application/zip") :
    predictNames args listing tmpInput = listing := by
  simp [predictNames, get_input_data, hz]

lemma predictPairs_length_of_zip
    (hz : args.files.content_type = "application/zip")
    (hanon : args.face_detection = true →
      ∀ fs names, (env.anonymize fs names).length = fs.length) :
    (predictPairs env args listing tmpInput).length = listing.length := by
  by_cases hf : args.face_detection <;>
    simp [predictPairs, predictNames, predictFiles, get_input_data, hz, hf,
      hanon, List.length_zip]

lemma predictPairs_single_of_not_zip
    (hz : args.files.content_type ≠ "application/zip")
    (hanon : args.face_detection = true →
      ∀ fs names, (env.anonymize fs names).length = fs.length) :
    ∃ f, predictPairs env args listing tmpInput =
      [(args.files.original_filename, f)] := by
  by_cases hf : args.face_detection
  · have hlen : (env.anonymize [args.files.filename]
        [args.files.original_filename]).length = 1 := by simp [hanon hf]
    obtain ⟨x, hx⟩ := List.length_eq_one.1 hlen
    refine ⟨x, ?_⟩
    simp [predictPairs, predictNames, predictFiles, get_input_data, hz, hf, hx]
  · refine ⟨args.files.filename, ?_⟩
    simp [predictPairs, predictNames, predictFiles, get_input_data, hz, hf]

end PairsLemmas

/-! ### String suffix facts for counting artifact kinds -/

lemma strEndsWith_append (a b suf : String)
    (h : suf.data.length ≤ b.data.length) :
    strEndsWith (a ++ b) suf = strEndsWith b suf := by
  simp only [strEndsWith, decide_eq_decide]
  have hdrop : (a ++ b).data.drop ((a ++ b).data.length - suf.data.length) =
      b.data.drop (b.data.length - suf.data.length) := by
    rw [String.data_append, List.length_append]
    have h2 : a.data.length + b.data.length - suf.data.length =
        a.data.length + (b.data.length - suf.data.length) := by omega
    rw [h2, List.drop_append]
  rw [hdrop]

lemma strEndsWith_pld_jpg (a : String) :
    strEndsWith (a ++ "_PLD.jpg") ".jpg" = true := by
  rw [strEndsWith_append a "_PLD.jpg" ".jpg" (by decide)]
  decide

lemma strEndsWith_plq_jpg (a : String) :
    strEndsWith (a ++ "_PLQ.jpg") ".jpg" = true := by
  rw [strEndsWith_append a "_PLQ.jpg" ".jpg" (by decide)]
  decide

lemma strEndsWith_xlsx (a : String) :
    strEndsWith (a ++ "_litter_items.xlsx") ".xlsx" = true := by
  rw [strEndsWith_append a "_litter_items.xlsx" ".xlsx" (by decide)]
  decide

lemma strEndsWith_pld_not_xlsx (a : String) :
    strEndsWith (a ++ "_PLD.jpg") ".xlsx" = false := by
  rw [strEndsWith_append a "_PLD.jpg" ".xlsx" (by decide)]
  decide

lemma strEndsWith_plq_not_xlsx (a : String) :
    strEndsWith (a ++ "_PLQ.jpg") ".xlsx" = false := by
  rw [strEndsWith_append a "_PLQ.jpg" ".xlsx" (by decide)]
  decide

lemma strEndsWith_xlsx_not_jpg (a : String) :
    strEndsWith (a ++ "_litter_items.xlsx") ".jpg" = false := by
  rw [strEndsWith_append a "_litter_items.xlsx" ".jpg" (by decide)]
  decide

/-! ### The claims -/

/-- C1: for every zip upload with at least one image, when `output_type`
is `Download` and at least one plot flag is true, `predict` returns an
open file handle during the first iteration of the per-image loop, so
only the first enumerated image's artifact is ever returned and no event
of any later iteration occurs. -/
theorem predict_download_returns_on_first_image
    (env : Env) (args : PredictArgs) (g : Globals) (listing : List String)
    (tmpInput tmp_dir : String)
    (hz : args.files.content_type = "application/zip")
    (hne : listing ≠ [])
    (hplot : args.PLD_plot = true ∨ args.PLQ_plot = true)
    (hdl : args.output_type = "Download")
    (hanon : args.face_detection = true →
      ∀ fs names, (env.anonymize fs names).length = fs.length) :
    (predictResult env args g listing tmpInput tmp_dir).isSome = true ∧
    ∀ e ∈ predictTrace env args g listing tmpInput tmp_dir, ∀ j,
      eventIter e = some j → j = 0 := by
  have hlen := predictPairs_length_of_zip env args listing tmpInput hz hanon
  have hne' : predictPairs env args listing tmpInput ≠ [] := by
    intro h0
    apply hne
    apply List.length_eq_zero.1
    rw [← hlen, h0]
    rfl
  obtain ⟨p, rest, hps⟩ := List.exists_cons_of_ne_nil hne'
  obtain ⟨n, f⟩ := p
  have hsome := processImage_isSome_of_download env args
    (predictNames args listing tmpInput)
    (env.load "litter-assessment/models/PLD_CNN.h5")
    (env.load "litter-assessment/models/PLQ_CNN.h5") tmp_dir 0 n f hdl hplot
  obtain ⟨r, hr⟩ := Option.isSome_iff_exists.1 hsome
  constructor
  · rw [predictResult_def, hps,
      predictLoop_cons_some env args (predictNames args listing tmpInput)
        (env.load "litter-assessment/models/PLD_CNN.h5")
        (env.load "litter-assessment/models/PLQ_CNN.h5") tmp_dir 0 n f rest r hr]
    rfl
  · intro e he j hj
    rw [predictTrace_def, hps,
      predictLoop_cons_some env args (predictNames args listing tmpInput)
        (env.load "litter-assessment/models/PLD_CNN.h5")
        (env.load "litter-assessment/models/PLQ_CNN.h5") tmp_dir 0 n f rest r hr] at he
    simp only [List.mem_cons] at he
    rcases he with rfl | rfl | he'
    · simp [eventIter] at hj
    · simp [eventIter] at hj
    · exact processImage_iter env args (predictNames args listing tmpInput)
        (env.load "litter-assessment/models/PLD_CNN.h5")
        (env.load "litter-assessment/models/PLQ_CNN.h5") tmp_dir 0 n f e he' j hj

/-- C1 witness: a concrete two-image zip run in download mode. -/
theorem predict_download_returns_on_first_image_witness :
    (predictResult envA argsBothDL g0 ["a.jpg", "b.jpg"] "/tmpin" "/tmp/d").isSome
      = true ∧
    ∀ e ∈ predictTrace envA argsBothDL g0 ["a.jpg", "b.jpg"] "/tmpin" "/tmp/d",
      ∀ j, eventIter e = some j → j = 0 :=
  predict_download_returns_on_first_image envA argsBothDL g0 ["a.jpg", "b.jpg"]
    "/tmpin" "/tmp/d" rfl (by decide) (Or.inl rfl) rfl (fun _ fs names => rfl)

/-- C2: every quantification event in a `predict` trace carries the
`c_matrix` of a detection result computed on the same image array in the
same loop iteration; the matching detection event is in the trace. -/
theorem plq_requires_fresh_pld_same_iteration
    (env : Env) (args : PredictArgs) (g : Globals) (listing : List String)
    (tmpInput tmp_dir : String) :
    ∀ i cm img,
      Event.plq i cm img ∈ predictTrace env args g listing tmpInput tmp_dir →
      ∃ d, cm = env.cMatrix d ∧
        Event.pld i img d ∈ predictTrace env args g listing tmpInput tmp_dir := by
  intro i cm img h
  rw [predictTrace_def] at h ⊢
  simp only [List.mem_cons] at h
  rcases h with h | h | h
  · exact absurd h (by simp)
  · exact absurd h (by simp)
  · obtain ⟨j, n, f, _, hproc, hall⟩ := predictLoop_mem env args
      (predictNames args listing tmpInput)
      (env.load "litter-assessment/models/PLD_CNN.h5")
      (env.load "litter-assessment/models/PLQ_CNN.h5") tmp_dir
      (predictPairs env args listing tmpInput) 0 _ h
    obtain ⟨d, hcm, hpld⟩ := processImage_plq env args
      (predictNames args listing tmpInput)
      (env.load "litter-assessment/models/PLD_CNN.h5")
      (env.load "litter-assessment/models/PLQ_CNN.h5") tmp_dir j n f i cm img hproc
    refine ⟨d, hcm, ?_⟩
    simp only [List.mem_cons]
    exact Or.inr (Or.inr (hall _ hpld))

/-- C3: with both plot flags true, the combined workbook with exactly
the two sheets `Litter Detection` and `Litter Quantification` is written
for the processed image, whatever the value of `output_type`. -/
theorem predict_both_plots_writes_workbook
    (env : Env) (args : PredictArgs) (g : Globals) (listing : List String)
    (tmpInput tmp_dir : String)
    (h1 : args.PLD_plot = true) (h2 : args.PLQ_plot = true)
    (hne : predictPairs env args listing tmpInput ≠ []) :
    ∃ n f rest, predictPairs env args listing tmpInput = (n, f) :: rest ∧
      Event.writeWorkbook
          (osPathJoin tmp_dir (pyDropLast4 (osPathBasename n)) ++ "_litter_items.xlsx")
          ["Litter Detection", "Litter Quantification"]
        ∈ predictTrace env args g listing tmpInput tmp_dir := by
  obtain ⟨p, rest, hps⟩ := List.exists_cons_of_ne_nil hne
  obtain ⟨n, f⟩ := p
  refine ⟨n, f, rest, hps, ?_⟩
  rw [predictTrace_def, hps]
  simp only [List.mem_cons]
  refine Or.inr (Or.inr ?_)
  exact predictLoop_head_mem env args (predictNames args listing tmpInput)
    (env.load "litter-assessment/models/PLD_CNN.h5")
    (env.load "litter-assessment/models/PLQ_CNN.h5") tmp_dir 0 n f rest _
    (processImage_workbook_mem env args (predictNames args listing tmpInput)
      (env.load "litter-assessment/models/PLD_CNN.h5")
      (env.load "litter-assessment/models/PLQ_CNN.h5") tmp_dir 0 n f h1 h2)

/-- C3 witness: a concrete run with both plots and an unrecognised
output type still writes the two-sheet workbook. -/
theorem predict_both_plots_writes_workbook_witness :
    ∃ n f rest, predictPairs envA argsBothWeird [] "/tmpin" = (n, f) :: rest ∧
      Event.writeWorkbook
          (osPathJoin "/tmp/d" (pyDropLast4 (osPathBasename n)) ++ "_litter_items.xlsx")
          ["Litter Detection", "Litter Quantification"]
        ∈ predictTrace envA argsBothWeird g0 [] "/tmpin" "/tmp/d" :=
  predict_both_plots_writes_workbook envA argsBothWeird g0 [] "/tmpin" "/tmp/d"
    rfl rfl (by decide)

/-- C4: with an `output_type` outside `Download`/`nextcloud` and at
least one plot flag true, `predict` returns `None`, uploads nothing, and
only prints a console message. -/
theorem predict_unknown_output_type_is_silent
    (env : Env) (args : PredictArgs) (g : Globals) (listing : List String)
    (tmpInput tmp_dir : String)
    (hdl : args.output_type ≠ "Download") (hnc : args.output_type ≠ "nextcloud")
    (hplot : args.PLD_plot = true ∨ args.PLQ_plot = true)
    (hne : predictPairs env args listing tmpInput ≠ []) :
    predictResult env args g listing tmpInput tmp_dir = none ∧
    (∀ l r, Event.upload l r ∉ predictTrace env args g listing tmpInput tmp_dir) ∧
    Event.printMsg "no output type selected"
      ∈ predictTrace env args g listing tmpInput tmp_dir := by
  refine ⟨?_, ?_, ?_⟩
  · rw [predictResult_def]
    exact predictLoop_snd_none env args (predictNames args listing tmpInput)
      (env.load "litter-assessment/models/PLD_CNN.h5")
      (env.load "litter-assessment/models/PLQ_CNN.h5") tmp_dir
      (fun j n f => processImage_none_of_not_download env args
        (predictNames args listing tmpInput)
        (env.load "litter-assessment/models/PLD_CNN.h5")
        (env.load "litter-assessment/models/PLQ_CNN.h5") tmp_dir j n f hdl)
      (predictPairs env args listing tmpInput) 0
  · intro l r hmem
    rw [predictTrace_def] at hmem
    simp only [List.mem_cons] at hmem
    rcases hmem with h | h | h
    · exact absurd h (by simp)
    · exact absurd h (by simp)
    · obtain ⟨j, n, f, _, hproc, _⟩ := predictLoop_mem env args
        (predictNames args listing tmpInput)
        (env.load "litter-assessment/models/PLD_CNN.h5")
        (env.load "litter-assessment/models/PLQ_CNN.h5") tmp_dir
        (predictPairs env args listing tmpInput) 0 _ h
      exact processImage_no_upload env args (predictNames args listing tmpInput)
        (env.load "litter-assessment/models/PLD_CNN.h5")
        (env.load "litter-assessment/models/PLQ_CNN.h5") tmp_dir j n f hnc l r hproc
  · obtain ⟨p, rest, hps⟩ := List.exists_cons_of_ne_nil hne
    obtain ⟨n, f⟩ := p
    rw [predictTrace_def, hps]
    simp only [List.mem_cons]
    refine Or.inr (Or.inr ?_)
    exact predictLoop_head_mem env args (predictNames args listing tmpInput)
      (env.load "litter-assessment/models/PLD_CNN.h5")
      (env.load "litter-assessment/models/PLQ_CNN.h5") tmp_dir 0 n f rest _
      (processImage_print env args (predictNames args listing tmpInput)
        (env.load "litter-assessment/models/PLD_CNN.h5")
        (env.load "litter-assessment/models/PLQ_CNN.h5") tmp_dir 0 n f hdl hnc hplot)

/-- C4 witness: a concrete run with `output_type = "weird"`. -/
theorem predict_unknown_output_type_is_silent_witness :
    predictResult envA argsPLDWeird g0 ["a.jpg"] "/tmpin" "/tmp/d" = none ∧
    (∀ l r, Event.upload l r ∉
      predictTrace envA argsPLDWeird g0 ["a.jpg"] "/tmpin" "/tmp/d") ∧
    Event.printMsg "no output type selected"
      ∈ predictTrace envA argsPLDWeird g0 ["a.jpg"] "/tmpin" "/tmp/d" :=
  predict_unknown_output_type_is_silent envA argsPLDWeird g0 ["a.jpg"] "/tmpin"
    "/tmp/d" (by decide) (by decide) (Or.inl rfl) (by decide)

/-- C2 witness: a concrete quantification-only run; its quantification
event has a matching fresh detection event in iteration 0. -/
theorem plq_requires_fresh_pld_same_iteration_witness :
    ∃ d, 3523 = envA.cMatrix d ∧
      Event.pld 0 12 d ∈ predictTrace envA argsPLQNextcloud g0 [] "/tmpin" "/tmp/d" :=
  plq_requires_fresh_pld_same_iteration envA argsPLQNextcloud g0 [] "/tmpin"
    "/tmp/d" 0 3523 12 (by decide)

/-- C5: a single-image, non-zip upload in download mode with both plot
flags true returns a handle on the zip archive of the scratch directory,
whose written contents are exactly one `.xlsx` file and two `.jpg` files
(the PLD and PLQ plots of that image). -/
theorem predict_single_image_download_archive
    (env : Env) (args : PredictArgs) (g : Globals) (listing : List String)
    (tmpInput tmp_dir : String)
    (hct : args.files.content_type ≠ "application/zip")
    (h1 : args.PLD_plot = true) (h2 : args.PLQ_plot = true)
    (hdl : args.output_type = "Download")
    (hanon : args.face_detection = true →
      ∀ fs names, (env.anonymize fs names).length = fs.length) :
    predictResult env args g listing tmpInput tmp_dir = some (tmp_dir ++ ".zip") ∧
    writtenFiles (predictTrace env args g listing tmpInput tmp_dir) =
      [osPathJoin tmp_dir (pyDropLast4 (osPathBasename args.files.original_filename))
         ++ "_PLD.jpg",
       osPathJoin tmp_dir (pyDropLast4 (osPathBasename args.files.original_filename))
         ++ "_PLQ.jpg",
       osPathJoin tmp_dir (pyDropLast4 (osPathBasename args.files.original_filename))
         ++ "_litter_items.xlsx"] ∧
    xlsxCount (predictTrace env args g listing tmpInput tmp_dir) = 1 ∧
    jpgCount (predictTrace env args g listing tmpInput tmp_dir) = 2 := by
  obtain ⟨f, hps⟩ := predictPairs_single_of_not_zip env args listing tmpInput hct hanon
  have heq := processImage_both_download env args (predictNames args listing tmpInput)
    (env.load "litter-assessment/models/PLD_CNN.h5")
    (env.load "litter-assessment/models/PLQ_CNN.h5") tmp_dir 0
    args.files.original_filename f h1 h2 hdl
  have hsnd : (processImage env args (predictNames args listing tmpInput)
      (env.load "litter-assessment/models/PLD_CNN.h5")
      (env.load "litter-assessment/models/PLQ_CNN.h5") tmp_dir 0
      args.files.original_filename f).2 = some (tmp_dir ++ ".zip") := by rw [heq]
  have hloop := predictLoop_cons_some env args (predictNames args listing tmpInput)
    (env.load "litter-assessment/models/PLD_CNN.h5")
    (env.load "litter-assessment/models/PLQ_CNN.h5") tmp_dir 0
    args.files.original_filename f [] (tmp_dir ++ ".zip") hsnd
  refine ⟨?_, ?_, ?_, ?_⟩
  · rw [predictResult_def, hps, hloop]
  · rw [predictTrace_def, hps, hloop, heq]
    simp [writtenFiles]
  · rw [predictTrace_def, hps, hloop, heq]
    simp [xlsxCount, writtenFiles, List.filter, strEndsWith_pld_not_xlsx,
      strEndsWith_plq_not_xlsx, strEndsWith_xlsx]
  · rw [predictTrace_def, hps, hloop, heq]
    simp [jpgCount, writtenFiles, List.filter, strEndsWith_pld_jpg,
      strEndsWith_plq_jpg, strEndsWith_xlsx_not_jpg]

/-- C5 witness: a concrete single-image download run. -/
theorem predict_single_image_download_archive_witness :
    predictResult envA argsSingleDL g0 [] "/tmpin" "/tmp/d" = some ("/tmp/d" ++ ".zip") ∧
    writtenFiles (predictTrace envA argsSingleDL g0 [] "/tmpin" "/tmp/d") =
      [osPathJoin "/tmp/d" (pyDropLast4 (osPathBasename argsSingleDL.files.original_filename))
         ++ "_PLD.jpg",
       osPathJoin "/tmp/d" (pyDropLast4 (osPathBasename argsSingleDL.files.original_filename))
         ++ "_PLQ.jpg",
       osPathJoin "/tmp/d" (pyDropLast4 (osPathBasename argsSingleDL.files.original_filename))
         ++ "_litter_items.xlsx"] ∧
    xlsxCount (predictTrace envA argsSingleDL g0 [] "/tmpin" "/tmp/d") = 1 ∧
    jpgCount (predictTrace envA argsSingleDL g0 [] "/tmpin" "/tmp/d") = 2 :=
  predict_single_image_download_archive envA argsSingleDL g0 [] "/tmpin" "/tmp/d"
    (by decide) rfl rfl rfl (fun _ fs names => rfl)

/-- C6 counterexample: a quantification-only run executes both stages
(detection and quantification events occur) yet writes no workbook, so
the claim that a workbook is written whenever both stages run is false. -/
theorem plq_only_both_stages_no_workbook_cex :
    Event.pld 0 12 3522 ∈ predictTrace envA argsPLQNextcloud g0 [] "/tmpin" "/tmp/d" ∧
    Event.plq 0 3523 12 ∈ predictTrace envA argsPLQNextcloud g0 [] "/tmpin" "/tmp/d" ∧
    (predictTrace envA argsPLQNextcloud g0 [] "/tmpin" "/tmp/d").filter
      isWorkbookEvent = [] := by decide

/-- C6 amended: the tabular results are written into a single two-sheet
workbook exactly in the runs where both plot flags are true; when
quantification runs because only `PLQ_plot` was requested, no workbook
is written. -/
theorem workbook_written_iff_both_plot_flags
    (env : Env) (args : PredictArgs) (g : Globals) (listing : List String)
    (tmpInput tmp_dir : String) :
    (∀ p sh, Event.writeWorkbook p sh ∈ predictTrace env args g listing tmpInput tmp_dir →
       args.PLD_plot = true ∧ args.PLQ_plot = true ∧
       sh = ["Litter Detection", "Litter Quantification"]) ∧
    (args.PLD_plot = true → args.PLQ_plot = true →
     predictPairs env args listing tmpInput ≠ [] →
     ∃ p, Event.writeWorkbook p ["Litter Detection", "Litter Quantification"]
        ∈ predictTrace env args g listing tmpInput tmp_dir) := by
  constructor
  · intro p sh h
    rw [predictTrace_def] at h
    simp only [List.mem_cons] at h
    rcases h with h | h | h
    · exact absurd h (by simp)
    · exact absurd h (by simp)
    · obtain ⟨j, n, f, _, hproc, _⟩ := predictLoop_mem env args
        (predictNames args listing tmpInput)
        (env.load "litter-assessment/models/PLD_CNN.h5")
        (env.load "litter-assessment/models/PLQ_CNN.h5") tmp_dir
        (predictPairs env args listing tmpInput) 0 _ h
      have hw := processImage_workbook env args (predictNames args listing tmpInput)
        (env.load "litter-assessment/models/PLD_CNN.h5")
        (env.load "litter-assessment/models/PLQ_CNN.h5") tmp_dir j n f p sh hproc
      exact ⟨hw.1, hw.2.1, hw.2.2.1⟩
  · intro h1 h2 hne
    obtain ⟨p0, rest, hps⟩ := List.exists_cons_of_ne_nil hne
    obtain ⟨n, f⟩ := p0
    refine ⟨osPathJoin tmp_dir (pyDropLast4 (osPathBasename n)) ++ "_litter_items.xlsx", ?_⟩
    rw [predictTrace_def, hps]
    simp only [List.mem_cons]
    refine Or.inr (Or.inr ?_)
    exact predictLoop_head_mem env args (predictNames args listing tmpInput)
      (env.load "litter-assessment/models/PLD_CNN.h5")
      (env.load "litter-assessment/models/PLQ_CNN.h5") tmp_dir 0 n f rest _
      (processImage_workbook_mem env args (predictNames args listing tmpInput)
        (env.load "litter-assessment/models/PLD_CNN.h5")
        (env.load "litter-assessment/models/PLQ_CNN.h5") tmp_dir 0 n f h1 h2)

/-- C6 witness: a concrete both-flags run writes the two-sheet workbook. -/
theorem workbook_written_iff_both_plot_flags_witness :
    ∃ p, Event.writeWorkbook p ["Litter Detection", "Litter Quantification"]
      ∈ predictTrace envA argsBothWeird g0 [] "/tmpin" "/tmp/d" :=
  (workbook_written_iff_both_plot_flags envA argsBothWeird g0 [] "/tmpin"
    "/tmp/d").2 rfl rfl (by decide)

/-- C7 counterexample: for the filename `photo.jpeg` (four-character
extension) the code saves the plot as `photo._PLD.jpg`, not under the
spec's `<basename-without-extension>_PLD.jpg` name `photo_PLD.jpg`. -/
theorem plot_name_truncation_cex :
    Event.savePlot "/tmp/d/photo._PLD.jpg"
        ∈ predictTrace envA argsJpegPLD g0 [] "/tmpin" "/tmp/d" ∧
    Event.savePlot
        (osPathJoin "/tmp/d" (specStripExtension (osPathBasename "photo.jpeg"))
          ++ "_PLD.jpg")
        ∉ predictTrace envA argsJpegPLD g0 [] "/tmpin" "/tmp/d" ∧
    osPathJoin "/tmp/d" (specStripExtension (osPathBasename "photo.jpeg"))
        ++ "_PLD.jpg" = "/tmp/d/photo_PLD.jpg" := by decide

/-- C7 amended: every plot artifact is saved under
`<basename with its last four characters removed>_<PLD|PLQ>.jpg`; this
agrees with `<basename-without-extension>` whenever the extension has
exactly three characters. -/
theorem plot_names_drop_last_four_chars
    (env : Env) (args : PredictArgs) (g : Globals) (listing : List String)
    (tmpInput tmp_dir : String) :
    (∀ p, Event.savePlot p ∈ predictTrace env args g listing tmpInput tmp_dir →
      ∃ nf, nf ∈ predictPairs env args listing tmpInput ∧
        (p = osPathJoin tmp_dir (pyDropLast4 (osPathBasename nf.1)) ++ "_PLD.jpg" ∨
         p = osPathJoin tmp_dir (pyDropLast4 (osPathBasename nf.1)) ++ "_PLQ.jpg")) ∧
    (∀ b ext : String, ext.data.length = 3 → pyDropLast4 (b ++ "." ++ ext) = b) := by
  constructor
  · intro p h
    rw [predictTrace_def] at h
    simp only [List.mem_cons] at h
    rcases h with h | h | h
    · exact absurd h (by simp)
    · exact absurd h (by simp)
    · obtain ⟨j, n, f, hmem, hproc, _⟩ := predictLoop_mem env args
        (predictNames args listing tmpInput)
        (env.load "litter-assessment/models/PLD_CNN.h5")
        (env.load "litter-assessment/models/PLQ_CNN.h5") tmp_dir
        (predictPairs env args listing tmpInput) 0 _ h
      exact ⟨(n, f), hmem, processImage_savePlot env args
        (predictNames args listing tmpInput)
        (env.load "litter-assessment/models/PLD_CNN.h5")
        (env.load "litter-assessment/models/PLQ_CNN.h5") tmp_dir j n f p hproc⟩
  · intro b ext hlen
    have h3 : (b ++ "." ++ ext).data = b.data ++ ('.' :: ext.data) := by
      rw [String.data_append, String.data_append]
      simp
    simp only [pyDropLast4, h3]
    have h4 : (b.data ++ ('.' :: ext.data)).length - 4 = b.data.length := by
      simp only [List.length_append, List.length_cons, hlen]
      omega
    rw [h4, List.take_left]

/-- C7 amended witness: a plot path of a concrete run has the truncated
form, and truncation agrees with extension stripping for `jpg`. -/
theorem plot_names_drop_last_four_chars_witness :
    (∃ nf, nf ∈ predictPairs envA argsSingleDL [] "/tmpin" ∧
      ("/tmp/d/photo_PLD.jpg" =
        osPathJoin "/tmp/d" (pyDropLast4 (osPathBasename nf.1)) ++ "_PLD.jpg" ∨
       "/tmp/d/photo_PLD.jpg" =
        osPathJoin "/tmp/d" (pyDropLast4 (osPathBasename nf.1)) ++ "_PLQ.jpg")) ∧
    pyDropLast4 ("photo" ++ "." ++ "jpg") = "photo" := by
  have h := plot_names_drop_last_four_chars envA argsSingleDL g0 [] "/tmpin" "/tmp/d"
  exact ⟨h.1 "/tmp/d/photo_PLD.jpg" (by decide), h.2 "photo" "jpg" (by decide)⟩

/-- C8: for a zip payload, `get_input_data` returns the extracted
listing as names with paths joining the temporary directory to each
name (equal lengths); for any other payload it returns the declared
original filename and the stored file path. -/
theorem get_input_data_contract
    (data : Payload) (listing : List String) (tmpInput : String) :
    (data.content_type = "application/zip" →
      (get_input_data data listing tmpInput).1 = listing ∧
      (get_input_data data listing tmpInput).2.length =
        (get_input_data data listing tmpInput).1.length ∧
      ∀ i, i < listing.length →
        (get_input_data data listing tmpInput).2.getD i "" =
          osPathJoin tmpInput (listing.getD i "")) ∧
    (data.content_type ≠ "application/zip" →
      get_input_data data listing tmpInput =
        ([data.original_filename], [data.filename])) := by
  constructor
  · intro h
    refine ⟨by simp [get_input_data, h], by simp [get_input_data, h], ?_⟩
    intro i hi
    simp only [get_input_data, h, if_true]
    rw [List.getD_eq_getElem _ _ (by simpa using hi)]
    simp
  · intro h
    simp [get_input_data, h]

/-- C8 witness: concrete zip and non-zip payloads. -/
theorem get_input_data_contract_witness :
    ((get_input_data payloadZip ["a.jpg", "b.jpg"] "/tmpin").1 = ["a.jpg", "b.jpg"] ∧
     (get_input_data payloadZip ["a.jpg", "b.jpg"] "/tmpin").2.length =
       (get_input_data payloadZip ["a.jpg", "b.jpg"] "/tmpin").1.length ∧
     ∀ i, i < (["a.jpg", "b.jpg"] : List String).length →
       (get_input_data payloadZip ["a.jpg", "b.jpg"] "/tmpin").2.getD i "" =
         osPathJoin "/tmpin" ((["a.jpg", "b.jpg"] : List String).getD i "")) ∧
    get_input_data payloadImg [] "/tmpin" =
      ([payloadImg.original_filename], [payloadImg.filename]) :=
  ⟨(get_input_data_contract payloadZip ["a.jpg", "b.jpg"] "/tmpin").1 rfl,
   (get_input_data_contract payloadImg [] "/tmpin").2 (by decide)⟩

/-- C9: `predict` loads both models afresh on every call: its entire
behaviour is independent of the incoming process-wide model state, its
trace begins with the two model-load events before any per-image event,
and it leaves the globals exactly as `warm` would. -/
theorem predict_loads_models_every_call
    (env : Env) (args : PredictArgs) (listing : List String)
    (tmpInput tmp_dir : String) :
    (∀ g g', predict env args g listing tmpInput tmp_dir =
       predict env args g' listing tmpInput tmp_dir) ∧
    (∀ g, ∃ rest, predictTrace env args g listing tmpInput tmp_dir =
       Event.loadModel "litter-assessment/models/PLD_CNN.h5" ::
       Event.loadModel "litter-assessment/models/PLQ_CNN.h5" :: rest) ∧
    (∀ g, (predict env args g listing tmpInput tmp_dir).1 = (warm env g).1) :=
  ⟨fun _ _ => rfl, fun _ => ⟨_, rfl⟩, fun _ => rfl⟩

/-- C10: with both plot flags false, `predict` still decodes every
enumerated image and runs detection and the detection dataframe on each,
but writes no plot file, writes no workbook, uploads nothing, and
returns `None` whatever `output_type` is. -/
theorem predict_no_plots_runs_detection_only
    (env : Env) (args : PredictArgs) (g : Globals) (listing : List String)
    (tmpInput tmp_dir : String)
    (h1 : args.PLD_plot = false) (h2 : args.PLQ_plot = false) :
    predictResult env args g listing tmpInput tmp_dir = none ∧
    (∀ p, Event.savePlot p ∉ predictTrace env args g listing tmpInput tmp_dir) ∧
    (∀ p sh, Event.writeWorkbook p sh ∉ predictTrace env args g listing tmpInput tmp_dir) ∧
    (∀ l r, Event.upload l r ∉ predictTrace env args g listing tmpInput tmp_dir) ∧
    (∀ k, k < (predictPairs env args listing tmpInput).length →
      Event.decode k ((predictPairs env args listing tmpInput).getD k ("", "")).2
        ∈ predictTrace env args g listing tmpInput tmp_dir ∧
      Event.pldDf k ∈ predictTrace env args g listing tmpInput tmp_dir ∧
      ∃ img d, Event.pld k img d
        ∈ predictTrace env args g listing tmpInput tmp_dir) := by
  have heq : ∀ (j : Nat) (n f : String),
      processImage env args (predictNames args listing tmpInput)
        (env.load "litter-assessment/models/PLD_CNN.h5")
        (env.load "litter-assessment/models/PLQ_CNN.h5") tmp_dir j n f =
      ([Event.decode j f,
        Event.pld j
          (if args.files.content_type = "application/octet-stream" then
            env.decodeBin f else env.decodeImg f)
          (env.pldRes
            (if args.files.content_type = "application/octet-stream" then
              env.decodeBin f else env.decodeImg f)
            (predictNames args listing tmpInput)
            (env.load "litter-assessment/models/PLD_CNN.h5")),
        Event.pldDf j], none) :=
    fun j n f => processImage_no_flags env args (predictNames args listing tmpInput)
      (env.load "litter-assessment/models/PLD_CNN.h5")
      (env.load "litter-assessment/models/PLQ_CNN.h5") tmp_dir j n f h1 h2
  have hnone : ∀ (j : Nat) (n f : String),
      (processImage env args (predictNames args listing tmpInput)
        (env.load "litter-assessment/models/PLD_CNN.h5")
        (env.load "litter-assessment/models/PLQ_CNN.h5") tmp_dir j n f).2 = none :=
    fun j n f => by rw [heq]
  refine ⟨?_, ?_, ?_, ?_, ?_⟩
  · rw [predictResult_def]
    exact predictLoop_snd_none env args (predictNames args listing tmpInput)
      (env.load "litter-assessment/models/PLD_CNN.h5")
      (env.load "litter-assessment/models/PLQ_CNN.h5") tmp_dir hnone
      (predictPairs env args listing tmpInput) 0
  · intro p hmem
    rw [predictTrace_def] at hmem
    simp only [List.mem_cons] at hmem
    rcases hmem with h | h | h
    · exact absurd h (by simp)
    · exact absurd h (by simp)
    · obtain ⟨j, n, f, _, hproc, _⟩ := predictLoop_mem env args
        (predictNames args listing tmpInput)
        (env.load "litter-assessment/models/PLD_CNN.h5")
        (env.load "litter-assessment/models/PLQ_CNN.h5") tmp_dir
        (predictPairs env args listing tmpInput) 0 _ h
      rw [heq] at hproc
      simp at hproc
  · intro p sh hmem
    rw [predictTrace_def] at hmem
    simp only [List.mem_cons] at hmem
    rcases hmem with h | h | h
    · exact absurd h (by simp)
    · exact absurd h (by simp)
    · obtain ⟨j, n, f, _, hproc, _⟩ := predictLoop_mem env args
        (predictNames args listing tmpInput)
        (env.load "litter-assessment/models/PLD_CNN.h5")
        (env.load "litter-assessment/models/PLQ_CNN.h5") tmp_dir
        (predictPairs env args listing tmpInput) 0 _ h
      rw [heq] at hproc
      simp at hproc
  · intro l r hmem
    rw [predictTrace_def] at hmem
    simp only [List.mem_cons] at hmem
    rcases hmem with h | h | h
    · exact absurd h (by simp)
    · exact absurd h (by simp)
    · obtain ⟨j, n, f, _, hproc, _⟩ := predictLoop_mem env args
        (predictNames args listing tmpInput)
        (env.load "litter-assessment/models/PLD_CNN.h5")
        (env.load "litter-assessment/models/PLQ_CNN.h5") tmp_dir
        (predictPairs env args listing tmpInput) 0 _ h
      rw [heq] at hproc
      simp at hproc
  · intro k hk
    have hstep := predictLoop_getD_mem env args (predictNames args listing tmpInput)
      (env.load "litter-assessment/models/PLD_CNN.h5")
      (env.load "litter-assessment/models/PLQ_CNN.h5") tmp_dir hnone
      (predictPairs env args listing tmpInput) 0 k hk
    rw [heq] at hstep
    simp only [Nat.zero_add] at hstep
    refine ⟨?_, ?_, ?_⟩
    · rw [predictTrace_def]
      exact List.mem_cons_of_mem _ (List.mem_cons_of_mem _ (hstep _ (by simp)))
    · rw [predictTrace_def]
      exact List.mem_cons_of_mem _ (List.mem_cons_of_mem _ (hstep _ (by simp)))
    · refine ⟨(if args.files.content_type = "application/octet-stream" then
          env.decodeBin ((predictPairs env args listing tmpInput).getD k ("", "")).2
        else
          env.decodeImg ((predictPairs env args listing tmpInput).getD k ("", "")).2),
        env.pldRes
          (if args.files.content_type = "application/octet-stream" then
            env.decodeBin ((predictPairs env args listing tmpInput).getD k ("", "")).2
          else
            env.decodeImg ((predictPairs env args listing tmpInput).getD k ("", "")).2)
          (predictNames args listing tmpInput)
          (env.load "litter-assessment/models/PLD_CNN.h5"), ?_⟩
      rw [predictTrace_def]
      exact List.mem_cons_of_mem _ (List.mem_cons_of_mem _ (hstep _ (by simp)))

/-- C10 witness: a concrete two-image zip run with no plots requested. -/
theorem predict_no_plots_runs_detection_only_witness :
    predictResult envA argsNoPlots g0 ["a.jpg", "b.jpg"] "/tmpin" "/tmp/d" = none ∧
    (∀ p, Event.savePlot p
      ∉ predictTrace envA argsNoPlots g0 ["a.jpg", "b.jpg"] "/tmpin" "/tmp/d") ∧
    (∀ p sh, Event.writeWorkbook p sh
      ∉ predictTrace envA argsNoPlots g0 ["a.jpg", "b.jpg"] "/tmpin" "/tmp/d") ∧
    (∀ l r, Event.upload l r
      ∉ predictTrace envA argsNoPlots g0 ["a.jpg", "b.jpg"] "/tmpin" "/tmp/d") ∧
    (∀ k, k < (predictPairs envA argsNoPlots ["a.jpg", "b.jpg"] "/tmpin").length →
      Event.decode k
          ((predictPairs envA argsNoPlots ["a.jpg", "b.jpg"] "/tmpin").getD k ("", "")).2
        ∈ predictTrace envA argsNoPlots g0 ["a.jpg", "b.jpg"] "/tmpin" "/tmp/d" ∧
      Event.pldDf k
        ∈ predictTrace envA argsNoPlots g0 ["a.jpg", "b.jpg"] "/tmpin" "/tmp/d" ∧
      ∃ img d, Event.pld k img d
        ∈ predictTrace envA argsNoPlots g0 ["a.jpg", "b.jpg"] "/tmpin" "/tmp/d") :=
  predict_no_plots_runs_detection_only envA argsNoPlots g0 ["a.jpg", "b.jpg"]
    "/tmpin" "/tmp/d" rfl rfl

end LitterAssessment
